import Mathlib

/-!
Verification of the nearby-driver search subsystem of the bitaksi
repository (driver-service).

The embedding covers:
* the domain data model (`internal/domain/driver.go`);
* the haversine distance function (`pkg/haversine`, modelled from the
  spec since only its test is present in the sources);
* the in-memory distance filter and exchange sort of
  `DriverRepository.FindNearby`
  (`internal/repository/mongodb/driver_repository.go`, lines 191-277);
* the use-case entry point `driverUseCase.FindNearbyDrivers` together
  with `validateLocation` (`internal/usecase/driver_usecase.go`).

Floating-point values of the Go code are modelled as real numbers.
-/

namespace Taxi

/-- Geographic coordinates, from `domain.Location` (`lat`, `lon`). -/
structure Location where
  lat : ℝ
  lon : ℝ

/-- Driver entity, from `domain.Driver`.  The Mongo object id and the
timestamps play no role in the search logic and are kept as plain data. -/
structure Driver where
  id : String
  firstName : String
  lastName : String
  plate : String
  taxiType : String
  carBrand : String
  carModel : String
  location : Location

/-- Membership in the closed set of taxi categories, from
`domain.TaxiType.IsValid` (`sari`, `turkuaz`, `siyah`). -/
def isValidTaxiType (t : String) : Bool :=
  t == "sari" || t == "turkuaz" || t == "siyah"

/-- Degrees to radians, as used by the haversine formula.
Modelled from the spec: the source file `pkg/haversine/haversine.go` is
missing from the sources (only its test is present); the spec gives the
formula in section 4.1. -/
noncomputable def toRadians (deg : ℝ) : ℝ := deg * Real.pi / 180

/-- Haversine intermediate value `h`.
Modelled from the spec (section 4.1):
`h = sin²(Δlat/2) + cos(lat1) * cos(lat2) * sin²(Δlon/2)`. -/
noncomputable def haversineH (lat1 lon1 lat2 lon2 : ℝ) : ℝ :=
  Real.sin (toRadians (lat2 - lat1) / 2) ^ 2 +
    Real.cos (toRadians lat1) * Real.cos (toRadians lat2) *
      Real.sin (toRadians (lon2 - lon1) / 2) ^ 2

/-- Great-circle distance in kilometers.
Modelled from the spec (section 4.1): `pkg/haversine/haversine.go` is
missing from the sources; the spec prescribes
`distance = 2 * 6371 * asin(sqrt(clamp(h, 0, 1)))`. -/
noncomputable def Distance (lat1 lon1 lat2 lon2 : ℝ) : ℝ :=
  2 * 6371 * Real.arcsin (Real.sqrt (min (max (haversineH lat1 lon1 lat2 lon2) 0) 1))

/-- Pair of a driver and its computed distance, from the local struct
`driverWithDistance` inside `DriverRepository.FindNearby`. -/
structure DriverWithDistance where
  driver : Driver
  distance : ℝ

/-- One pass of the inner loop of the sort in
`DriverRepository.FindNearby` (lines 262-268): the current element at
position `i` is carried through the tail, swapping whenever
`nearbyDrivers[i].distance > nearbyDrivers[j].distance`.  The first
component is the value left at position `i` after the pass, the second
the tail as rearranged by the swaps. -/
noncomputable def selectMin (x : DriverWithDistance) :
    List DriverWithDistance → DriverWithDistance × List DriverWithDistance
  | [] => (x, [])
  | y :: ys =>
    if y.distance < x.distance then
      ((selectMin y ys).1, x :: (selectMin y ys).2)
    else
      ((selectMin x ys).1, y :: (selectMin x ys).2)

/-- Outer loop of the sort in `DriverRepository.FindNearby`
(lines 262-268), with the number of remaining outer iterations as fuel.
Each iteration fixes the minimum of the remaining suffix at its head. -/
noncomputable def exchangeSortAux : Nat → List DriverWithDistance → List DriverWithDistance
  | 0, l => l
  | _ + 1, [] => []
  | n + 1, x :: xs => (selectMin x xs).1 :: exchangeSortAux n (selectMin x xs).2

/-- The sort of `DriverRepository.FindNearby`: the double loop
`for i; for j > i; if a[i].distance > a[j].distance swap`. -/
noncomputable def exchangeSort (l : List DriverWithDistance) : List DriverWithDistance :=
  exchangeSortAux l.length l

/-- Distance filter of `DriverRepository.FindNearby` (lines 238-259):
for each decoded driver the haversine distance from the query center is
computed and the driver is kept, paired with that distance, exactly when
`distance <= radiusKm`. -/
noncomputable def nearbyWithDistance (allDrivers : List Driver) (lat lon radiusKm : ℝ) :
    List DriverWithDistance :=
  allDrivers.filterMap fun d =>
    if Distance lat lon d.location.lat d.location.lon ≤ radiusKm then
      some ⟨d, Distance lat lon d.location.lat d.location.lon⟩
    else
      none

/-- In-memory part of `DriverRepository.FindNearby` (lines 232-276):
filter the decoded drivers by distance, sort by distance, and return the
drivers only. -/
noncomputable def findNearbyFrom (allDrivers : List Driver) (lat lon radiusKm : ℝ) :
    List Driver :=
  (exchangeSort (nearbyWithDistance allDrivers lat lon radiusKm)).map (·.driver)

/-- Server-side query built by `DriverRepository.FindNearby`
(lines 197-207): the collection is narrowed by `taxiType` when the
filter is present, otherwise returned whole. -/
def storeQuery (coll : List Driver) (taxiType : Option String) : List Driver :=
  match taxiType with
  | none => coll
  | some t => coll.filter fun d => d.taxiType == t

/-- `DriverRepository.FindNearby` (lines 191-277).  The MongoDB
collection is modelled as the list `coll`; a cursor or query failure is
modelled by the flag `storeFail`, in which case the error is returned
and no drivers are produced. -/
noncomputable def FindNearby (coll : List Driver) (storeFail : Bool)
    (lat lon radiusKm : ℝ) (taxiType : Option String) :
    Except Unit (List Driver) :=
  if storeFail then
    .error ()
  else
    .ok (findNearbyFrom (storeQuery coll taxiType) lat lon radiusKm)

/-- Errors returned by the use-case layer (`driver_usecase.go`). -/
inductive UCError
  | invalidLatitude
  | invalidLongitude
  | invalidTaxiType
  | findFailed
deriving DecidableEq

/-- `driverUseCase.validateLocation` (`driver_usecase.go`): pure range
check on latitude and longitude; the origin (0, 0) passes. -/
noncomputable def validateLocation (lat lon : ℝ) : Except UCError Unit :=
  if lat < -90 ∨ lat > 90 then .error .invalidLatitude
  else if lon < -180 ∨ lon > 180 then .error .invalidLongitude
  else .ok ()

/-- Taxi-type guard of `driverUseCase.FindNearbyDrivers`:
`taxiType != nil && !taxiType.IsValid()`. -/
def taxiTypeCheckFails (taxiType : Option String) : Bool :=
  match taxiType with
  | none => false
  | some t => !(isValidTaxiType t)

/-- Response record of the nearby search,
from `usecase.NearbyDriverResponse`. -/
structure NearbyDriverResponse where
  id : String
  firstName : String
  lastName : String
  plate : String
  taxiType : String
  distanceKm : ℝ

/-- Conversion of a driver to a response in
`driverUseCase.FindNearbyDrivers`: the distance is recomputed with the
same haversine call the repository used. -/
noncomputable def toNearbyResponse (lat lon : ℝ) (d : Driver) : NearbyDriverResponse :=
  { id := d.id
    firstName := d.firstName
    lastName := d.lastName
    plate := d.plate
    taxiType := d.taxiType
    distanceKm := Distance lat lon d.location.lat d.location.lon }

/-- `driverUseCase.FindNearbyDrivers` (`driver_usecase.go`): validate
the center, validate the taxi type when present, call the repository
with the constant radius `6.0`, and map the drivers to responses. -/
noncomputable def FindNearbyDrivers (coll : List Driver) (storeFail : Bool)
    (lat lon : ℝ) (taxiType : Option String) :
    Except UCError (List NearbyDriverResponse) :=
  match validateLocation lat lon with
  | .error e => .error e
  | .ok _ =>
    if taxiTypeCheckFails taxiType then
      .error .invalidTaxiType
    else
      match FindNearby coll storeFail lat lon 6 taxiType with
      | .error _ => .error .findFailed
      | .ok drivers => .ok (drivers.map (toNearbyResponse lat lon))

/-- Concrete driver stored with the sentinel location (0, 0), as in the
repository test fixture with plate `00ZERO1`. -/
def driverZero : Driver :=
  ⟨"idZ", "Zero", "Test", "00ZERO1", "sari", "Toyota", "Corolla", ⟨0, 0⟩⟩

/-- Concrete driver at latitude 0, longitude 90. -/
def driverA : Driver :=
  ⟨"idA", "Ayse", "Test", "34AAA111", "sari", "Toyota", "Corolla", ⟨0, 90⟩⟩

/-- Concrete driver at the same location as `driverA` but with a
different identity: the two are tied in distance from the origin. -/
def driverB : Driver :=
  ⟨"idB", "Banu", "Test", "34BBB222", "sari", "Toyota", "Corolla", ⟨0, 90⟩⟩

/-- Concrete driver at the origin, strictly closer to a search centered
at the origin than `driverA` and `driverB`. -/
def driverC : Driver :=
  ⟨"idC", "Cem", "Test", "34CCC333", "sari", "Toyota", "Corolla", ⟨0, 0⟩⟩

/-- Concrete driver at the origin whose category is `turkuaz`. -/
def driverTurkuaz : Driver :=
  ⟨"idT", "Tolga", "Test", "34TTT444", "turkuaz", "Toyota", "Corolla", ⟨0, 0⟩⟩

/-! ## General lemmas about the embedded code -/

/-- The distance from a point to itself is zero. -/
theorem distance_self (lat lon : ℝ) : Distance lat lon lat lon = 0 := by
  have h : haversineH lat lon lat lon = 0 := by
    simp [haversineH, toRadians]
  simp [Distance, h]

/-- Concrete distance value used by the counterexamples: from the origin
to the point at latitude 0, longitude 90 the haversine distance is a
quarter of the Earth circumference, `6371 * pi / 2` kilometers. -/
theorem distance_zero_ninety : Distance 0 0 0 90 = 6371 * Real.pi / 2 := by
  have h : haversineH 0 0 0 90 = Real.sin (Real.pi / 4) ^ 2 := by
    have e2 : (90 : ℝ) * Real.pi / 180 / 2 = Real.pi / 4 := by ring
    simp [haversineH, toRadians, e2, Real.sin_pi_div_four]
  have hs0 : 0 ≤ Real.sin (Real.pi / 4) := by
    rw [Real.sin_pi_div_four]; positivity
  have hs1 : Real.sin (Real.pi / 4) ^ 2 ≤ 1 := Real.sin_sq_le_one _
  have hpi := Real.pi_pos
  rw [Distance, h, max_eq_left (sq_nonneg _), min_eq_left hs1,
    Real.sqrt_sq hs0,
    Real.arcsin_sin (by linarith) (by linarith)]
  ring

/-- The inner pass preserves the length of the tail. -/
theorem selectMin_snd_length (x : DriverWithDistance) (l : List DriverWithDistance) :
    (selectMin x l).2.length = l.length := by
  induction l generalizing x with
  | nil => simp [selectMin]
  | cons y ys ih =>
    by_cases h : y.distance < x.distance
    · simp [selectMin, if_pos h, ih]
    · simp [selectMin, if_neg h, ih]

/-- The value the inner pass leaves at position `i` is a minimum: it is
bounded by the incoming element and by every element of the rearranged
tail. -/
theorem selectMin_le (x : DriverWithDistance) (l : List DriverWithDistance) :
    (selectMin x l).1.distance ≤ x.distance ∧
      ∀ y ∈ (selectMin x l).2, (selectMin x l).1.distance ≤ y.distance := by
  induction l generalizing x with
  | nil => simp [selectMin]
  | cons y ys ih =>
    by_cases h : y.distance < x.distance
    · obtain ⟨h1, h2⟩ := ih y
      refine ⟨by simpa [selectMin, if_pos h] using h1.trans h.le, ?_⟩
      intro z hz
      simp only [selectMin, if_pos h] at hz ⊢
      rcases List.mem_cons.mp hz with rfl | hz
      · exact h1.trans h.le
      · exact h2 z hz
    · obtain ⟨h1, h2⟩ := ih x
      refine ⟨by simpa [selectMin, if_neg h] using h1, ?_⟩
      intro z hz
      simp only [selectMin, if_neg h] at hz ⊢
      rcases List.mem_cons.mp hz with rfl | hz
      · exact h1.trans (not_lt.mp h)
      · exact h2 z hz

/-- The inner pass permutes the processed elements. -/
theorem selectMin_perm (x : DriverWithDistance) (l : List DriverWithDistance) :
    List.Perm ((selectMin x l).1 :: (selectMin x l).2) (x :: l) := by
  induction l generalizing x with
  | nil => simp [selectMin]
  | cons y ys ih =>
    by_cases h : y.distance < x.distance
    · simp only [selectMin, if_pos h]
      exact (List.Perm.swap x (selectMin y ys).1 (selectMin y ys).2).trans
        ((ih y).cons x)
    · simp only [selectMin, if_neg h]
      exact ((List.Perm.swap y (selectMin x ys).1 (selectMin x ys).2).trans
        ((ih x).cons y)).trans (List.Perm.swap x y ys)

/-- The sort permutes its input, for any fuel. -/
theorem exchangeSortAux_perm (n : Nat) (l : List DriverWithDistance) :
    List.Perm (exchangeSortAux n l) l := by
  induction n generalizing l with
  | zero => simp [exchangeSortAux]
  | succ n ih =>
    match l with
    | [] => simp [exchangeSortAux]
    | x :: xs =>
      exact (((ih (selectMin x xs).2).cons (selectMin x xs).1).trans
        (selectMin_perm x xs))

/-- The sort permutes its input. -/
theorem exchangeSort_perm (l : List DriverWithDistance) :
    List.Perm (exchangeSort l) l :=
  exchangeSortAux_perm l.length l

/-- With enough fuel the sort returns a list that is non-decreasing in
the stored distance. -/
theorem exchangeSortAux_sorted (n : Nat) (l : List DriverWithDistance)
    (hl : l.length ≤ n) :
    (exchangeSortAux n l).Sorted (fun a b => a.distance ≤ b.distance) := by
  induction n generalizing l with
  | zero =>
    have : l = [] := List.eq_nil_of_length_eq_zero (Nat.le_zero.mp hl)
    simp [this, exchangeSortAux]
  | succ n ih =>
    match l with
    | [] => simp [exchangeSortAux]
    | x :: xs =>
      rw [exchangeSortAux]
      refine List.sorted_cons.mpr ⟨?_, ?_⟩
      · intro b hb
        have hb2 : b ∈ (selectMin x xs).2 :=
          (exchangeSortAux_perm n _).mem_iff.mp hb
        exact (selectMin_le x xs).2 b hb2
      · refine ih _ ?_
        rw [selectMin_snd_length]
        exact Nat.le_of_succ_le_succ hl

/-- The result of the sort is non-decreasing in the stored distance. -/
theorem exchangeSort_sorted (l : List DriverWithDistance) :
    (exchangeSort l).Sorted (fun a b => a.distance ≤ b.distance) :=
  exchangeSortAux_sorted l.length l le_rfl

/-- Characterization of the distance filter. -/
theorem mem_nearbyWithDistance {allDrivers : List Driver} {lat lon radiusKm : ℝ}
    {p : DriverWithDistance} (hp : p ∈ nearbyWithDistance allDrivers lat lon radiusKm) :
    p.driver ∈ allDrivers ∧
      p.distance = Distance lat lon p.driver.location.lat p.driver.location.lon ∧
      p.distance ≤ radiusKm := by
  obtain ⟨d, hd, he⟩ := List.mem_filterMap.mp hp
  by_cases h : Distance lat lon d.location.lat d.location.lon ≤ radiusKm
  · rw [if_pos h] at he
    cases Option.some.inj he
    exact ⟨hd, rfl, h⟩
  · rw [if_neg h] at he
    exact absurd he (Option.noConfusion)

/-- Every driver in the search result came from the input list and lies
within the radius. -/
theorem findNearbyFrom_mem {allDrivers : List Driver} {lat lon radiusKm : ℝ}
    {d : Driver} (hd : d ∈ findNearbyFrom allDrivers lat lon radiusKm) :
    d ∈ allDrivers ∧ Distance lat lon d.location.lat d.location.lon ≤ radiusKm := by
  obtain ⟨p, hp, rfl⟩ := List.mem_map.mp hd
  have hp2 : p ∈ nearbyWithDistance allDrivers lat lon radiusKm :=
    (exchangeSort_perm _).mem_iff.mp hp
  obtain ⟨h1, h2, h3⟩ := mem_nearbyWithDistance hp2
  exact ⟨h1, h2 ▸ h3⟩

/-- Every input driver within the radius, boundary included, appears in
the search result. -/
theorem findNearbyFrom_mem_of {allDrivers : List Driver} {lat lon radiusKm : ℝ}
    {d : Driver} (hd : d ∈ allDrivers)
    (hle : Distance lat lon d.location.lat d.location.lon ≤ radiusKm) :
    d ∈ findNearbyFrom allDrivers lat lon radiusKm := by
  have hp : (⟨d, Distance lat lon d.location.lat d.location.lon⟩ : DriverWithDistance) ∈
      nearbyWithDistance allDrivers lat lon radiusKm := by
    refine List.mem_filterMap.mpr ⟨d, hd, ?_⟩
    rw [if_pos hle]
  exact List.mem_map.mpr
    ⟨_, (exchangeSort_perm _).mem_iff.mpr hp, rfl⟩

/-- Unfolding equation for the inner pass on an empty tail. -/
theorem selectMin_nil (x : DriverWithDistance) : selectMin x [] = (x, []) := rfl

/-- Unfolding equation for the inner pass when a swap happens. -/
theorem selectMin_cons_lt {x y : DriverWithDistance} (ys : List DriverWithDistance)
    (h : y.distance < x.distance) :
    selectMin x (y :: ys) = ((selectMin y ys).1, x :: (selectMin y ys).2) := by
  simp only [selectMin, if_pos h]

/-- Unfolding equation for the inner pass when no swap happens. -/
theorem selectMin_cons_ge {x y : DriverWithDistance} (ys : List DriverWithDistance)
    (h : ¬ y.distance < x.distance) :
    selectMin x (y :: ys) = ((selectMin x ys).1, y :: (selectMin x ys).2) := by
  simp only [selectMin, if_neg h]

/-- The sort on the empty list. -/
theorem exchangeSort_nil : exchangeSort [] = [] := rfl

/-- Structural unfolding of the sort: one outer iteration moves the
minimum to the front and sorts the rearranged tail. -/
theorem exchangeSort_cons (x : DriverWithDistance) (xs : List DriverWithDistance) :
    exchangeSort (x :: xs) = (selectMin x xs).1 :: exchangeSort (selectMin x xs).2 := by
  show exchangeSortAux (xs.length + 1) (x :: xs) =
    (selectMin x xs).1 :: exchangeSort (selectMin x xs).2
  simp only [exchangeSortAux]
  rw [← selectMin_snd_length x xs]
  rfl

/-- The distance filter keeps a driver within the radius. -/
theorem nearbyWithDistance_cons_le {lat lon radiusKm : ℝ} {d : Driver}
    (l : List Driver) (h : Distance lat lon d.location.lat d.location.lon ≤ radiusKm) :
    nearbyWithDistance (d :: l) lat lon radiusKm =
      ⟨d, Distance lat lon d.location.lat d.location.lon⟩ ::
        nearbyWithDistance l lat lon radiusKm := by
  simp only [nearbyWithDistance, List.filterMap_cons, if_pos h]

/-- The distance filter drops a driver beyond the radius. -/
theorem nearbyWithDistance_cons_gt {lat lon radiusKm : ℝ} {d : Driver}
    (l : List Driver) (h : ¬ Distance lat lon d.location.lat d.location.lon ≤ radiusKm) :
    nearbyWithDistance (d :: l) lat lon radiusKm =
      nearbyWithDistance l lat lon radiusKm := by
  simp only [nearbyWithDistance, List.filterMap_cons, if_neg h]

/-- The distance filter on the empty list. -/
theorem nearbyWithDistance_nil (lat lon radiusKm : ℝ) :
    nearbyWithDistance [] lat lon radiusKm = [] := rfl

/-- The center (0, 0) passes the use-case range validation. -/
theorem validateLocation_origin : validateLocation 0 0 = .ok () := by
  rw [validateLocation, if_neg (by norm_num), if_neg (by norm_num)]

/-- Inversion of a successful run of `FindNearbyDrivers`: the center was
in range, the taxi-type guard passed, the store call succeeded, and the
responses are exactly the repository result at radius 6 mapped through
the response conversion. -/
theorem findNearbyDrivers_ok_inv {coll : List Driver} {storeFail : Bool}
    {lat lon : ℝ} {taxiType : Option String} {rs : List NearbyDriverResponse}
    (h : FindNearbyDrivers coll storeFail lat lon taxiType = .ok rs) :
    validateLocation lat lon = .ok () ∧ taxiTypeCheckFails taxiType = false ∧
      storeFail = false ∧
      rs = (findNearbyFrom (storeQuery coll taxiType) lat lon 6).map
        (toNearbyResponse lat lon) := by
  unfold FindNearbyDrivers at h
  rcases hv : validateLocation lat lon with e | u
  · rw [hv] at h; exact absurd h (by simp)
  · cases u
    rw [hv] at h
    by_cases ht : taxiTypeCheckFails taxiType
    · rw [if_pos ht] at h; exact absurd h (by simp)
    · rw [if_neg ht] at h
      unfold FindNearby at h
      cases storeFail with
      | true => rw [if_pos rfl] at h; exact absurd h (by simp)
      | false =>
        rw [if_neg (by simp)] at h
        simp only [Except.ok.injEq] at h
        exact ⟨rfl, by simpa using ht, rfl, h.symm⟩


/-- Evaluation of the search on a single driver within the radius. -/
theorem findNearbyFrom_singleton_le {lat lon radiusKm : ℝ} {d : Driver}
    (h : Distance lat lon d.location.lat d.location.lon ≤ radiusKm) :
    findNearbyFrom [d] lat lon radiusKm = [d] := by
  unfold findNearbyFrom
  rw [nearbyWithDistance_cons_le [] h, nearbyWithDistance_nil,
    exchangeSort_cons, selectMin_nil, exchangeSort_nil]
  rfl

/-- Evaluation of the search on a single driver beyond the radius. -/
theorem findNearbyFrom_singleton_gt {lat lon radiusKm : ℝ} {d : Driver}
    (h : ¬ Distance lat lon d.location.lat d.location.lon ≤ radiusKm) :
    findNearbyFrom [d] lat lon radiusKm = [] := by
  unfold findNearbyFrom
  rw [nearbyWithDistance_cons_gt [] h, nearbyWithDistance_nil, exchangeSort_nil]
  rfl

/-- Forward evaluation of `FindNearbyDrivers` when the center is in
range, the taxi-type guard passes, and the store succeeds. -/
theorem findNearbyDrivers_eval {coll : List Driver} {lat lon : ℝ}
    {taxiType : Option String}
    (hv : validateLocation lat lon = .ok ())
    (ht : taxiTypeCheckFails taxiType = false) :
    FindNearbyDrivers coll false lat lon taxiType =
      .ok ((findNearbyFrom (storeQuery coll taxiType) lat lon 6).map
        (toNearbyResponse lat lon)) := by
  unfold FindNearbyDrivers
  rw [hv]
  simp [ht, FindNearby]

/-! ## Claim theorems -/

/-- Claim C7: the distance function is total and never produces an
undefined or unbounded value for any real inputs: with `h` clamped to
`[0, 1]` before `asin`, the result is a well-defined real number between
`0` and `6371 * pi` (a quarter circumference times `2R`), in particular
never negative, for all inputs including antipodal points. -/
theorem distance_total_and_bounded (lat1 lon1 lat2 lon2 : ℝ) :
    0 ≤ Distance lat1 lon1 lat2 lon2 ∧
      Distance lat1 lon1 lat2 lon2 ≤ 6371 * Real.pi := by
  constructor
  · have h1 : 0 ≤ Real.arcsin (Real.sqrt (min (max (haversineH lat1 lon1 lat2 lon2) 0) 1)) :=
      Real.arcsin_nonneg.mpr (Real.sqrt_nonneg _)
    unfold Distance
    positivity
  · have h2 : Real.arcsin (Real.sqrt (min (max (haversineH lat1 lon1 lat2 lon2) 0) 1)) ≤
        Real.pi / 2 := Real.arcsin_le_pi_div_two _
    unfold Distance
    nlinarith [Real.pi_pos]

/-- Claim C2: for every candidate list returned by the store and every
center and radius, the result of the nearby search is sorted
non-decreasing in the haversine distance from the center. -/
theorem findNearbyFrom_sorted (allDrivers : List Driver) (lat lon radiusKm : ℝ) :
    (findNearbyFrom allDrivers lat lon radiusKm).Sorted
      (fun a b => Distance lat lon a.location.lat a.location.lon ≤
        Distance lat lon b.location.lat b.location.lon) := by
  unfold findNearbyFrom
  show List.Pairwise _ (List.map _ _)
  rw [List.pairwise_map]
  have hs : (exchangeSort (nearbyWithDistance allDrivers lat lon radiusKm)).Sorted
      (fun a b => a.distance ≤ b.distance) := exchangeSort_sorted _
  refine List.Pairwise.imp_of_mem ?_ hs
  intro a b ha hb hab
  have ha2 := mem_nearbyWithDistance ((exchangeSort_perm _).mem_iff.mp ha)
  have hb2 := mem_nearbyWithDistance ((exchangeSort_perm _).mem_iff.mp hb)
  rw [← ha2.2.1, ← hb2.2.1]
  exact hab

/-- Claim C3: every element of the returned result lies within the
radius, and the boundary is inclusive: a candidate whose distance equals
the radius exactly is included in the result. -/
theorem findNearbyFrom_radius_inclusive (allDrivers : List Driver) (lat lon radiusKm : ℝ) :
    (∀ d ∈ findNearbyFrom allDrivers lat lon radiusKm,
      Distance lat lon d.location.lat d.location.lon ≤ radiusKm) ∧
    (∀ d ∈ allDrivers,
      Distance lat lon d.location.lat d.location.lon = radiusKm →
        d ∈ findNearbyFrom allDrivers lat lon radiusKm) :=
  ⟨fun _ hd => (findNearbyFrom_mem hd).2,
   fun _ hd he => findNearbyFrom_mem_of hd he.le⟩

/-- Witness for claim C3, at the concrete input of a single driver at
the origin searched from the origin with radius 0: the returned driver
is at distance 0, within the radius, and the exact-boundary candidate is
included. -/
theorem findNearbyFrom_radius_inclusive_witness :
    Distance 0 0 driverZero.location.lat driverZero.location.lon ≤ 0 ∧
      driverZero ∈ findNearbyFrom [driverZero] 0 0 0 := by
  have h0 : Distance 0 0 driverZero.location.lat driverZero.location.lon = 0 :=
    distance_self 0 0
  constructor
  · exact (findNearbyFrom_radius_inclusive [driverZero] 0 0 0).1 driverZero
      (by rw [findNearbyFrom_singleton_le h0.le]; exact List.mem_singleton.mpr rfl)
  · exact (findNearbyFrom_radius_inclusive [driverZero] 0 0 0).2 driverZero
      (List.mem_singleton.mpr rfl) h0

/-- Claim C1 (code bug): the search performs no validity check on
candidate coordinates.  A driver stored with the sentinel location
(0, 0) is returned by the full entry point when the center is the origin
(which the center validation accepts): `FindNearbyDrivers` returns the
(0, 0) driver with distance 0, although the repository test fixture
documents that zero coordinates should be skipped regardless of
radius. -/
theorem findNearbyDrivers_returns_origin_driver :
    FindNearbyDrivers [driverZero] false 0 0 none =
      .ok [toNearbyResponse 0 0 driverZero] ∧
    (toNearbyResponse 0 0 driverZero).distanceKm = 0 := by
  have h0 : Distance 0 0 driverZero.location.lat driverZero.location.lon = 0 :=
    distance_self 0 0
  constructor
  · rw [findNearbyDrivers_eval validateLocation_origin (by rfl)]
    rw [show storeQuery [driverZero] none = [driverZero] from rfl]
    rw [findNearbyFrom_singleton_le (by rw [h0]; norm_num)]
    rfl
  · exact h0

/-- Dropping the distances from the filtered pairs yields exactly the
input drivers within the radius, in input order. -/
theorem nearbyWithDistance_map_driver (allDrivers : List Driver) (lat lon radiusKm : ℝ) :
    (nearbyWithDistance allDrivers lat lon radiusKm).map (·.driver) =
      allDrivers.filter
        (fun d => decide (Distance lat lon d.location.lat d.location.lon ≤ radiusKm)) := by
  induction allDrivers with
  | nil => rfl
  | cons d l ih =>
    by_cases h : Distance lat lon d.location.lat d.location.lon ≤ radiusKm
    · rw [nearbyWithDistance_cons_le l h, List.map_cons, ih, List.filter_cons,
        if_pos (by simpa using h)]
    · rw [nearbyWithDistance_cons_gt l h, ih, List.filter_cons,
        if_neg (by simpa using h)]

/-- Claim C4 (counterexample): the sort of the nearby search is not
stable.  With the store order `[driverA, driverB, driverC]`, where
`driverA` and `driverB` are tied at distance `6371 * pi / 2` from the
center and `driverC` is strictly closer, the exchange sort returns the
tied pair in reversed relative order `[driverC, driverB, driverA]`,
although the store returned `driverA` before `driverB`. -/
theorem sort_reverses_tied_pair :
    findNearbyFrom [driverA, driverB, driverC] 0 0 20100 =
      [driverC, driverB, driverA] ∧
    Distance 0 0 driverA.location.lat driverA.location.lon =
      Distance 0 0 driverB.location.lat driverB.location.lon ∧
    driverA ≠ driverB := by
  have hA : Distance 0 0 driverA.location.lat driverA.location.lon =
      6371 * Real.pi / 2 := distance_zero_ninety
  have hB : Distance 0 0 driverB.location.lat driverB.location.lon =
      6371 * Real.pi / 2 := distance_zero_ninety
  have hC : Distance 0 0 driverC.location.lat driverC.location.lon = 0 :=
    distance_self 0 0
  have hpos : (0 : ℝ) < 6371 * Real.pi / 2 := by positivity
  have hle : 6371 * Real.pi / 2 ≤ 20100 := by
    have := Real.pi_le_four
    linarith
  refine ⟨?_, hA.trans hB.symm, ?_⟩
  · unfold findNearbyFrom
    rw [nearbyWithDistance_cons_le _ (by rw [hA]; exact hle),
      nearbyWithDistance_cons_le _ (by rw [hB]; exact hle),
      nearbyWithDistance_cons_le _ (by rw [hC]; norm_num),
      nearbyWithDistance_nil, hA, hB, hC]
    rw [exchangeSort_cons,
      selectMin_cons_ge _ (lt_irrefl (6371 * Real.pi / 2)),
      selectMin_cons_lt _ hpos, selectMin_nil]
    dsimp only
    rw [exchangeSort_cons, selectMin_cons_ge _ (lt_irrefl (6371 * Real.pi / 2)),
      selectMin_nil]
    dsimp only
    rw [exchangeSort_cons, selectMin_nil]
    dsimp only
    rw [exchangeSort_nil]
    rfl
  · intro h
    simpa [driverA, driverB] using congrArg Driver.plate h

/-- Claim C4 (amended): the sort is deterministic and both members of a
tied pair always appear: the result of the nearby search is a
permutation of the radius-qualifying candidates in store order, but the
relative order of tied candidates is not in general the store order. -/
theorem findNearbyFrom_perm_qualifying (allDrivers : List Driver) (lat lon radiusKm : ℝ) :
    List.Perm (findNearbyFrom allDrivers lat lon radiusKm)
      (allDrivers.filter
        (fun d => decide (Distance lat lon d.location.lat d.location.lon ≤ radiusKm))) := by
  unfold findNearbyFrom
  rw [← nearbyWithDistance_map_driver allDrivers lat lon radiusKm]
  exact (exchangeSort_perm _).map _

/-- Claim C5 (counterexample): the executor does not re-apply the
category filter to the candidate list: given a store-returned list
containing a `turkuaz` driver at the center, the in-memory search keeps
it, so with a `sari` filter supplied a result element may fail the
filter whenever the store list was not pre-filtered. -/
theorem category_filter_not_reapplied :
    findNearbyFrom [driverTurkuaz] 0 0 6 = [driverTurkuaz] ∧
      driverTurkuaz.taxiType ≠ "sari" := by
  have h0 : Distance 0 0 driverTurkuaz.location.lat driverTurkuaz.location.lon = 0 :=
    distance_self 0 0
  exact ⟨findNearbyFrom_singleton_le (by rw [h0]; norm_num),
    by simp [driverTurkuaz]⟩

/-- Claim C5 (amended): category purity of the result holds exactly
because the store query filters: when the repository search runs its
own store query with a category filter, every element of the result has
that category. -/
theorem findNearby_category_from_store {coll : List Driver} {lat lon radiusKm : ℝ}
    {t : String} {l : List Driver}
    (hl : FindNearby coll false lat lon radiusKm (some t) = .ok l) :
    ∀ d ∈ l, d.taxiType = t := by
  intro d hd
  unfold FindNearby at hl
  rw [if_neg (by simp)] at hl
  cases Except.ok.inj hl
  have hmem : d ∈ storeQuery coll (some t) := (findNearbyFrom_mem hd).1
  have := (List.mem_filter.mp hmem).2
  simpa using this

/-- Witness for the amended claim C5: with the collection holding only
the `sari` driver at the origin and the filter `sari`, the repository
search returns that driver and its category equals the filter. -/
theorem findNearby_category_from_store_witness : driverZero.taxiType = "sari" := by
  have h0 : Distance 0 0 driverZero.location.lat driverZero.location.lon = 0 :=
    distance_self 0 0
  have hq : storeQuery [driverZero] (some "sari") = [driverZero] := rfl
  have hl : FindNearby [driverZero] false 0 0 6 (some "sari") = .ok [driverZero] := by
    unfold FindNearby
    rw [if_neg (by simp), hq, findNearbyFrom_singleton_le (by rw [h0]; norm_num)]
  exact findNearby_category_from_store hl driverZero (List.mem_singleton.mpr rfl)

/-- Claim C6: with the store healthy and no category filter, the entry
point fails exactly when the caller-supplied center is out of the
numeric ranges, and the all-zero exclusion does not apply to the
center: a search from (0, 0) is accepted and proceeds. -/
theorem center_validation_iff (coll : List Driver) (lat lon : ℝ) :
    ((∃ e, FindNearbyDrivers coll false lat lon none = .error e) ↔
      (lat < -90 ∨ lat > 90 ∨ lon < -180 ∨ lon > 180)) ∧
    (∃ rs, FindNearbyDrivers coll false 0 0 none = .ok rs) := by
  constructor
  · constructor
    · rintro ⟨e, he⟩
      by_contra hcon
      push_neg at hcon
      have hv : validateLocation lat lon = .ok () := by
        unfold validateLocation
        rw [if_neg (by push_neg; exact ⟨hcon.1, hcon.2.1⟩),
          if_neg (by push_neg; exact ⟨hcon.2.2.1, hcon.2.2.2⟩)]
      rw [findNearbyDrivers_eval hv (by rfl)] at he
      exact absurd he (by simp)
    · intro hcon
      by_cases h1 : lat < -90 ∨ lat > 90
      · refine ⟨.invalidLatitude, ?_⟩
        unfold FindNearbyDrivers validateLocation
        rw [if_pos h1]
      · have h2 : lon < -180 ∨ lon > 180 := by tauto
        refine ⟨.invalidLongitude, ?_⟩
        unfold FindNearbyDrivers validateLocation
        rw [if_neg h1, if_pos h2]
  · exact ⟨_, findNearbyDrivers_eval validateLocation_origin (by rfl)⟩

/-- Witness for claim C6: at the concrete out-of-range center
(100, 0) the entry point fails, by the claim theorem. -/
theorem center_validation_iff_witness :
    ∃ e, FindNearbyDrivers [] false 100 0 none = .error e :=
  (center_validation_iff [] 100 0).1.mpr (by norm_num)

/-- Claim C8: if the store fetch fails, the repository search returns
the error with no drivers, and the entry point aborts with a find
failure, returning no partial result list. -/
theorem store_failure_aborts (coll : List Driver) (lat lon radiusKm : ℝ)
    (taxiType : Option String)
    (hv : validateLocation lat lon = .ok ())
    (ht : taxiTypeCheckFails taxiType = false) :
    FindNearby coll true lat lon radiusKm taxiType = .error () ∧
      FindNearbyDrivers coll true lat lon taxiType = .error .findFailed := by
  constructor
  · unfold FindNearby
    rw [if_pos rfl]
  · unfold FindNearbyDrivers
    rw [hv]
    simp [ht, FindNearby]

/-- Witness for claim C8, at the concrete input of an empty collection,
the origin center and no filter. -/
theorem store_failure_aborts_witness :
    FindNearby [] true 0 0 6 none = .error () ∧
      FindNearbyDrivers [] true 0 0 none = .error .findFailed :=
  store_failure_aborts [] 0 0 6 none validateLocation_origin (by rfl)

/-- Claim C9 (counterexample): the radius is not caller-visible at the
entry point.  `FindNearbyDrivers` accepts no radius argument and always
uses the hard-coded constant 6.0: a driver at distance `6371 * pi / 2`
km is excluded by the entry point, while the radius-parametric
repository search includes the same driver when called with radius
20100. -/
theorem entry_point_radius_not_configurable :
    FindNearbyDrivers [driverA] false 0 0 none = .ok [] ∧
      FindNearby [driverA] false 0 0 20100 none = .ok [driverA] := by
  have hA : Distance 0 0 driverA.location.lat driverA.location.lon =
      6371 * Real.pi / 2 := distance_zero_ninety
  have hgt : ¬ Distance 0 0 driverA.location.lat driverA.location.lon ≤ 6 := by
    rw [hA, not_le]
    have := Real.pi_gt_three
    linarith
  constructor
  · rw [findNearbyDrivers_eval validateLocation_origin (by rfl),
      show storeQuery [driverA] none = [driverA] from rfl,
      findNearbyFrom_singleton_gt hgt]
    rfl
  · unfold FindNearby
    rw [if_neg (by simp),
      show storeQuery [driverA] none = [driverA] from rfl,
      findNearbyFrom_singleton_le (by rw [hA]; linarith [Real.pi_le_four])]

/-- Claim C9 (amended): the 6.0 km radius is a constant hard-coded in
the use case: whenever validation passes, the entry point returns
exactly the repository search at radius 6, whatever the caller
supplies. -/
theorem entry_point_radius_hardcoded (coll : List Driver) (lat lon : ℝ)
    (taxiType : Option String)
    (hv : validateLocation lat lon = .ok ())
    (ht : taxiTypeCheckFails taxiType = false) :
    FindNearbyDrivers coll false lat lon taxiType =
      .ok ((findNearbyFrom (storeQuery coll taxiType) lat lon 6).map
        (toNearbyResponse lat lon)) :=
  findNearbyDrivers_eval hv ht

/-- Witness for the amended claim C9, at the concrete input of an empty
collection and the origin center. -/
theorem entry_point_radius_hardcoded_witness :
    FindNearbyDrivers [] false 0 0 none = .ok [] := by
  have h := entry_point_radius_hardcoded [] 0 0 none validateLocation_origin (by rfl)
  simpa using h

/-- Claim C10: every response of the entry point reports as
`distanceKm` the haversine distance recomputed from the same center and
the returned driver's stored location — the very value the repository
compared against the radius — and therefore every reported `distanceKm`
is at most 6. -/
theorem response_distance_recomputed {coll : List Driver} {lat lon : ℝ}
    {taxiType : Option String} {rs : List NearbyDriverResponse}
    (h : FindNearbyDrivers coll false lat lon taxiType = .ok rs) :
    ∀ resp ∈ rs, ∃ drv ∈ findNearbyFrom (storeQuery coll taxiType) lat lon 6,
      resp = toNearbyResponse lat lon drv ∧
      resp.distanceKm = Distance lat lon drv.location.lat drv.location.lon ∧
      resp.distanceKm ≤ 6 := by
  obtain ⟨-, -, -, hrs⟩ := findNearbyDrivers_ok_inv h
  subst hrs
  intro resp hresp
  obtain ⟨drv, hdrv, rfl⟩ := List.mem_map.mp hresp
  exact ⟨drv, hdrv, rfl, rfl, (findNearbyFrom_mem hdrv).2⟩

/-- Witness for claim C10, at the concrete input of the collection
holding the origin driver and the origin center: the reported distance
of the returned response is at most 6. -/
theorem response_distance_recomputed_witness :
    (toNearbyResponse 0 0 driverZero).distanceKm ≤ 6 := by
  have h0 : Distance 0 0 driverZero.location.lat driverZero.location.lon = 0 :=
    distance_self 0 0
  have h : FindNearbyDrivers [driverZero] false 0 0 none =
      .ok [toNearbyResponse 0 0 driverZero] := by
    rw [findNearbyDrivers_eval validateLocation_origin (by rfl),
      show storeQuery [driverZero] none = [driverZero] from rfl,
      findNearbyFrom_singleton_le (by rw [h0]; norm_num)]
    rfl
  obtain ⟨drv, -, -, -, hle⟩ := response_distance_recomputed h
    (toNearbyResponse 0 0 driverZero) (List.mem_singleton.mpr rfl)
  exact hle

end Taxi
